import Mathlib

/-!
Verification development for the mcmod-mirror freshness-and-reconciliation
core.  The definitions below are a shallow embedding of the read handlers in
app/controller/v1/modrinth and app/controller/curseforge/v1, of the sync
worker in app/sync/modrinth.py, and of the database models in
app/models/database.  Stores are lists of records, timestamps are natural
numbers (seconds), and the side effect of submitting a synchronization job is
returned explicitly as a list of enqueued jobs.  Record structures keep the
fields that the embedded code reads.
-/

namespace MCMirror

/-! Modrinth database model -/

/-- Modelled from the spec: the modrinth database model file
(app/models/database/modrinth.py) is not under src.  Fields follow section 3,
Catalog-B family, Project with id, slug, found, sync_at, with found defaulting
to true in the style of the curseforge models in
app/models/database/curseforge.py. -/
structure MProject where
  id : String
  slug : String
  found : Bool := true
  sync_at : Nat := 0
  deriving DecidableEq, Repr

/-- Modelled from the spec: the modrinth database model file is not under src.
Version with id, projectId, slug, found, sync_at per section 3; slug is
optional because process_version_resp constructs a Version without one. -/
structure MVersion where
  id : String
  project_id : String
  slug : Option String := none
  found : Bool := true
  sync_at : Nat := 0
  deriving DecidableEq, Repr

/-- Modelled from the spec: the modrinth database model file is not under src.
File with versionId and hashes sha1 and sha512 per section 3; slug is optional
and is filled in by sync_project_all_version. -/
structure MFile where
  sha1 : String
  sha512 : String
  version_id : String
  slug : Option String := none
  found : Bool := true
  sync_at : Nat := 0
  deriving DecidableEq, Repr

/-- A record committed by the modrinth sync worker: one of the three model
kinds handled by submit_models in app/sync/modrinth.py. -/
inductive MRecord where
  | project (p : MProject)
  | version (v : MVersion)
  | file (f : MFile)
  deriving DecidableEq, Repr

def MRecord.isProject : MRecord → Bool
  | .project _ => true
  | _ => false

def MRecord.isVersion : MRecord → Bool
  | .version _ => true
  | _ => false

def MRecord.isFile : MRecord → Bool
  | .file _ => true
  | _ => false

def MRecord.foundFlag : MRecord → Bool
  | .project p => p.found
  | .version v => v.found
  | .file f => f.found

/-! Python constructor-call semantics for the tombstone writes.  The sync
worker builds tombstones with keyword arguments, and pydantic ignores a
keyword that is not a declared field, so the construction is modelled as a
lookup in an explicit keyword list with the model defaults applied. -/

inductive PyVal where
  | vbool (b : Bool)
  | vstr (s : String)
  deriving DecidableEq, Repr

def kwLookup (kw : List (String × PyVal)) (k : String) : Option PyVal :=
  (kw.find? (fun p => p.1 == k)).map (fun p => p.2)

/-- Modelled from the spec: pydantic construction of a modrinth Project from
keyword arguments.  A keyword that is not a declared field (such as success)
is ignored; found keeps its default true unless passed explicitly. -/
def MProject.ofKwargs (kw : List (String × PyVal)) (now : Nat) : MProject :=
  { id := match kwLookup kw "id" with | some (.vstr s) => s | _ => ""
  , slug := match kwLookup kw "slug" with | some (.vstr s) => s | _ => ""
  , found := match kwLookup kw "found" with | some (.vbool b) => b | _ => true
  , sync_at := now }

/-- Modelled from the spec: pydantic construction of a modrinth Version from
keyword arguments, with the same ignore-unknown-keyword semantics. -/
def MVersion.ofKwargs (kw : List (String × PyVal)) (now : Nat) : MVersion :=
  { id := match kwLookup kw "id" with | some (.vstr s) => s | _ => ""
  , project_id := match kwLookup kw "project_id" with | some (.vstr s) => s | _ => ""
  , slug := match kwLookup kw "slug" with | some (.vstr s) => some s | _ => none
  , found := match kwLookup kw "found" with | some (.vbool b) => b | _ => true
  , sync_at := now }

/-! Upstream payloads for the modrinth sync worker (app/sync/modrinth.py).
A version payload carries its files nested, as upstream exposes them. -/

structure MrFilePayload where
  sha1 : String
  sha512 : String
  deriving DecidableEq, Repr

structure MrVersionPayload where
  id : String
  project_id : String
  files : List MrFilePayload
  deriving DecidableEq, Repr

/-- The inputs of one sync_project job on its found path: the project payload
from GET project/{id} together with the version list from
GET project/{id}/version. -/
structure MrProjectPayload where
  id : String
  slug : String
  versions : List MrVersionPayload
  deriving DecidableEq, Repr

/-- The File record built inside the loop of sync_project_all_version:
file["version_id"] = version["id"]; File(found=True, slug=slug, **file). -/
def mkModrinthFile (slug : String) (v : MrVersionPayload) (f : MrFilePayload)
    (now : Nat) : MFile :=
  { sha1 := f.sha1, sha512 := f.sha512, version_id := v.id, slug := some slug
  , found := true, sync_at := now }

/-- The Version record built by sync_project_all_version:
Version(found=True, slug=slug, **version). -/
def mkModrinthVersion (slug : String) (v : MrVersionPayload) (now : Nat) : MVersion :=
  { id := v.id, project_id := v.project_id, slug := some slug
  , found := true, sync_at := now }

/-- The loop of sync_project_all_version (app/sync/modrinth.py lines 87-92):
for each version, append a File record per nested file (with version_id
injected) and then the Version record itself. -/
def sync_project_all_version_models (slug : String) :
    List MrVersionPayload → Nat → List MRecord
  | [], _ => []
  | v :: rest, now =>
      v.files.map (fun f => MRecord.file (mkModrinthFile slug v f now))
        ++ [MRecord.version (mkModrinthVersion slug v now)]
        ++ sync_project_all_version_models slug rest now

/-- The records committed by sync_project on its found path
(app/sync/modrinth.py lines 110-121): one Project(found=True, **res) followed
by the output of sync_project_all_version with the project's slug. -/
def sync_project_found_models (proj : MrProjectPayload) (now : Nat) : List MRecord :=
  MRecord.project { id := proj.id, slug := proj.slug, found := true, sync_at := now }
    :: sync_project_all_version_models proj.slug proj.versions now

/-- The records committed by sync_project on its 404 path
(app/sync/modrinth.py line 117): Project(success=False, id=project_id,
slug=project_id).  The keyword success is not a field of the Project model,
so pydantic ignores it. -/
def sync_project_404_models (project_id : String) (now : Nat) : List MProject :=
  [MProject.ofKwargs
      [("success", PyVal.vbool false), ("id", PyVal.vstr project_id),
       ("slug", PyVal.vstr project_id)] now]

/-! The sync_version worker and the arity of process_version_resp. -/

/-- Number of parameters of def process_version_resp(res: dict) at
app/sync/modrinth.py line 144. -/
def process_version_resp_paramCount : Nat := 1

/-- The body of process_version_resp (app/sync/modrinth.py lines 144-150). -/
def process_version_resp (res : MrVersionPayload) (now : Nat) : List MRecord :=
  res.files.map (fun f =>
      MRecord.file { sha1 := f.sha1, sha512 := f.sha512, version_id := res.id
                   , slug := none, found := true, sync_at := now })
    ++ [MRecord.version { id := res.id, project_id := res.project_id
                        , slug := none, found := true, sync_at := now }]

/-- A positional argument of a Python call inside sync_version. -/
inductive MrPyArg where
  | dict (d : MrVersionPayload)
  | list (l : List MRecord)
  deriving DecidableEq, Repr

/-- The argument list of the call process_version_resp(res, models) at
app/sync/modrinth.py line 164: two positional arguments, the response dict
and the (empty at that point) models list. -/
def sync_version_call_args (res : MrVersionPayload) : List MrPyArg :=
  [MrPyArg.dict res, MrPyArg.list []]

/-- A Python call to process_version_resp: returns none, modelling the
TypeError Python raises, when the number of positional arguments does not
match the function's single parameter. -/
def callProcessVersionResp (args : List MrPyArg) (now : Nat) :
    Option (List MRecord) :=
  if args.length = process_version_resp_paramCount then
    match args with
    | [MrPyArg.dict res] => some (process_version_resp res now)
    | _ => none
  else none

/-- The result of an upstream fetch inside a sync job: a decoded payload or a
404 response (raised as ResponseCodeException with status 404). -/
inductive MrFetchResult where
  | ok (payload : MrVersionPayload)
  | notFound404
  deriving DecidableEq, Repr

/-- Outcome of one sync_version job: a committed batch, or an uncaught
TypeError raised before any commit. -/
inductive SyncVersionOutcome where
  | committed (records : List MRecord)
  | raisedTypeError
  deriving DecidableEq, Repr

/-- sync_version (app/sync/modrinth.py lines 153-166).  On 404 it commits
Version(success=False, id=version_id).  Otherwise it calls
process_version_resp(res, models) with two positional arguments and would
then extend with sync_project_all_version(res["project_id"]); those cascade
records are abstracted as the parameter cascade because the call before them
never completes. -/
def sync_version (fetch : MrFetchResult) (version_id : String)
    (cascade : List MRecord) (now : Nat) : SyncVersionOutcome :=
  match fetch with
  | .notFound404 =>
      .committed
        [MRecord.version
            (MVersion.ofKwargs
              [("success", PyVal.vbool false), ("id", PyVal.vstr version_id)] now)]
  | .ok res =>
      match callProcessVersionResp (sync_version_call_args res) now with
      | none => .raisedTypeError
      | some ms => .committed (ms ++ cascade)

/-! Modrinth read handlers (app/controller/v1/modrinth). -/

/-- A synchronization job sent from the modrinth read path. -/
inductive MrJob where
  | syncProject (idslug : String)
  | syncVersion (version_id : String)
  | syncMultiVersions (ids : List String)
  | syncMultiHashes (hashes : List String)
  deriving DecidableEq, Repr

/-- A modrinth read-path response: the uncached signal, a bare expire status
code response with neither data nor flag, or data with a trustable flag. -/
inductive MrResp where
  | uncached
  | expireStatus
  | projData (p : MProject) (trustable : Bool)
  | verData (v : MVersion) (trustable : Bool)
  | versData (vs : List MVersion) (trustable : Bool)
  deriving DecidableEq, Repr

/-- find_one(Project, or_(Project.id == idslug, Project.slug == idslug)). -/
def mrFindProject (store : List MProject) (idslug : String) : Option MProject :=
  store.find? (fun p => decide (p.id = idslug ∨ p.slug = idslug))

/-- find_one(Version, or_(Version.id == vid, Version.slug == vid)). -/
def mrFindVersion (store : List MVersion) (vid : String) : Option MVersion :=
  store.find? (fun v => decide (v.id = vid ∨ v.slug = some vid))

/-- modrinth_project (app/controller/v1/modrinth/__init__.py lines 37-46).
ttl is mcim_config.expire_second.modrinth.project, now is time.time(). -/
def modrinth_project (store : List MProject) (idslug : String) (ttl now : Nat) :
    MrResp × List MrJob :=
  match mrFindProject store idslug with
  | none => (.uncached, [.syncProject idslug])
  | some model =>
      if model.sync_at + ttl < now then (.projData model false, [.syncProject idslug])
      else (.projData model true, [])

/-- modrinth_version (app/controller/v1/modrinth/__init__.py lines 101-114).
The stale branch returns Response(status_code=EXPIRE_STATUS_CODE), a bodiless
status; the fresh branch returns TrustableResponse(content=...) whose
trustable flag defaults to true (app/utils/response.py is not under src; per
spec section 6 every trustable response carries the flag, defaulting true). -/
def modrinth_version (store : List MVersion) (version_id : String) (ttl now : Nat) :
    MrResp × List MrJob :=
  match mrFindVersion store version_id with
  | none => (.uncached, [.syncVersion version_id])
  | some model =>
      if model.sync_at + ttl < now then (.expireStatus, [.syncVersion version_id])
      else (.verData model true, [])

/-- modrinth_files (app/controller/v1/modrinth/__init__.py lines 181-203).
aio_mongo_engine.find returns a list and is never None, so the two
`is None` uncached branches of the source can never be taken and are omitted.
algoSha1 selects the sha1 hash field, otherwise sha512. -/
def modrinth_files (fileStore : List MFile) (versionStore : List MVersion)
    (hashes : List String) (algoSha1 : Bool) : MrResp × List MrJob :=
  let files_models :=
    if algoSha1 then fileStore.filter (fun f => decide (f.sha1 ∈ hashes))
    else fileStore.filter (fun f => decide (f.sha512 ∈ hashes))
  let tj : Bool × List MrJob :=
    if files_models.length ≠ hashes.length then (false, [.syncMultiHashes hashes])
    else (true, [])
  let version_ids := files_models.map (fun f => f.version_id)
  let version_models := versionStore.filter (fun v => decide (v.id ∈ version_ids))
  if version_models.length ≠ files_models.length then
    (.versData version_models false, tj.2 ++ [.syncMultiVersions version_ids])
  else
    (.versData version_models tj.1, tj.2)

/-! Curseforge database model and read handlers
(app/models/database/curseforge.py, app/controller/curseforge/v1). -/

/-- The embedded file summary of a fingerprint record (FileInfo); the handlers
read only its id. -/
structure FileInfoCF where
  id : Nat
  deriving DecidableEq, Repr

/-- The Mod model (app/models/database/curseforge.py lines 225-257); the
handlers embedded here read id, slug, found and sync_at. -/
structure CFMod where
  id : Nat
  slug : String := ""
  found : Bool := true
  sync_at : Nat := 0
  deriving DecidableEq, Repr

/-- The Fingerprint model (app/models/database/curseforge.py lines 271-285):
primary key id is the content fingerprint, file is the resolved file. -/
structure Fingerprint where
  id : Nat
  file : FileInfoCF
  found : Bool := true
  sync_at : Nat := 0
  deriving DecidableEq, Repr

/-- Modelled from the spec: the response model file
(app/models/response/curseforge.py) is not under src; fields are those the
handlers construct, with empty defaults. -/
structure FingerprintResp where
  isCacheBuilt : Bool := false
  exactFingerprints : List Nat := []
  exactMatches : List Fingerprint := []
  unmatchedFingerprints : List Nat := []
  installedFingerprints : List Nat := []
  deriving DecidableEq, Repr

/-- A curseforge read-path response: the uncached signal or data with a
trustable flag. -/
inductive CFResp where
  | uncached
  | modData (m : CFMod) (trustable : Bool)
  | modsData (ms : List CFMod) (trustable : Bool)
  | fingerData (r : FingerprintResp) (trustable : Bool)
  deriving DecidableEq, Repr

def CFResp.fingerMatches : CFResp → List Fingerprint
  | .fingerData r _ => r.exactMatches
  | _ => []

def CFResp.fingerExact : CFResp → List Nat
  | .fingerData r _ => r.exactFingerprints
  | _ => []

/-- Python list(set(xs) - set(ys)) as used for not_match_modids and
not_match_fingerprints; the model fixes the first-occurrence order, the
content is the set difference. -/
def setDiffList (xs ys : List Nat) : List Nat :=
  xs.dedup.filter (fun k => decide (k ∉ ys))

/-- find_one(Mod, Mod.id == modId). -/
def cfFindMod (store : List CFMod) (modId : Nat) : Option CFMod :=
  store.find? (fun m => decide (m.id = modId))

/-- find(Mod, in_(Mod.id, modIds)): one batch query. -/
def cfFindMods (store : List CFMod) (modIds : List Nat) : List CFMod :=
  store.filter (fun m => decide (m.id ∈ modIds))

/-- find(Fingerprint, in_(Fingerprint.id, fingerprints)). -/
def cfFindFingerprints (store : List Fingerprint) (fps : List Nat) : List Fingerprint :=
  store.filter (fun m => decide (m.id ∈ fps))

/-- curseforge_mod (app/controller/curseforge/v1/__init__.py lines 194-226).
The TTL staleness check of the source is commented out, so a found record is
always returned with trustable true.  The second component lists the key sets
passed to add_curseforge_modIds_to_queue. -/
def curseforge_mod (store : List CFMod) (modId : Nat) (force : Bool) :
    CFResp × List (List Nat) :=
  if force then (.uncached, [[modId]])
  else
    match cfFindMod store modId with
    | none => (.uncached, [[modId]])
    | some m => (.modData m true, [])

/-- curseforge_mods (app/controller/curseforge/v1/__init__.py lines 241-298).
The force branch and the nothing-found branch both enqueue the full request
and return an empty-data response with trustable false; the count-mismatch
branch enqueues list(set(modIds) - set(found ids)). -/
def curseforge_mods (store : List CFMod) (modIds : List Nat) (force : Bool) :
    CFResp × List (List Nat) :=
  if force then (.modsData [] false, [modIds])
  else
    let mod_models := cfFindMods store modIds
    if mod_models.isEmpty then (.modsData [] false, [modIds])
    else if mod_models.length ≠ modIds.length then
      (.modsData mod_models false,
        [setDiffList modIds (mod_models.map (fun m => m.id))])
    else (.modsData mod_models true, [])

/-- The per-model dump in the fingerprints loop: fingerprint =
model_dump(); fingerprint["id"] = fingerprint_model.file.id.  Only the
externally visible id changes; the stored record keeps its key. -/
def fingerprintDump (m : Fingerprint) : Fingerprint := { m with id := m.file.id }

/-- curseforge_fingerprints (app/controller/curseforge/v1/__init__.py lines
587-645).  not_match_fingerprints is computed before the branches, the
nothing-found branch returns only unmatchedFingerprints, and the found branch
substitutes each match's id with the resolved file's id while reporting the
original fingerprint keys in exactFingerprints. -/
def curseforge_fingerprints (store : List Fingerprint) (fps : List Nat)
    (force : Bool) : CFResp × List (List Nat) :=
  if force then (.uncached, [fps])
  else
    let models := cfFindFingerprints store fps
    let notMatch := setDiffList fps (models.map (fun m => m.id))
    if models.isEmpty then
      (.fingerData { unmatchedFingerprints := fps } false, [fps])
    else
      let tj : Bool × List (List Nat) :=
        if models.length ≠ fps.length then (false, [notMatch]) else (true, [])
      (.fingerData { isCacheBuilt := true
                   , exactFingerprints := models.map (fun m => m.id)
                   , exactMatches := models.map fingerprintDump
                   , unmatchedFingerprints := notMatch
                   , installedFingerprints := [] } tj.1, tj.2)

/-! The freshness decision as the specification words it. -/

/-- The freshness decision exactly as the spec states it in section 4.1:
false when no record exists, false when found is false, false when
now - sync_at exceeds the ttl, true otherwise.  This definition follows the
spec's words and is compared against the handlers, which are translated from
the source. -/
def isTrustable_spec (record : Option (Bool × Nat)) (ttl now : Nat) : Bool :=
  match record with
  | none => false
  | some (found, sync_at) => found && !(decide (now - sync_at > ttl))

/-! Concrete sample records used by the concrete-input theorems below. -/

def staleCFMod : CFMod := { id := 30001, slug := "jei", found := true, sync_at := 0 }

def freshCFMod : CFMod := { id := 30002, slug := "rei", found := true, sync_at := 1000000000 }

def staleMVersion : MVersion :=
  { id := "v1", project_id := "p1", slug := some "v1slug", found := true, sync_at := 0 }

def sampleFileA : MFile :=
  { sha1 := "a", sha512 := "xa", version_id := "v1", slug := some "s"
  , found := true, sync_at := 0 }

def sampleFileB : MFile :=
  { sha1 := "b", sha512 := "xb", version_id := "v1", slug := some "s"
  , found := true, sync_at := 0 }

def sampleVersion1 : MVersion :=
  { id := "v1", project_id := "p1", slug := some "s", found := true, sync_at := 0 }

def sampleMProject : MProject :=
  { id := "p", slug := "p", found := true, sync_at := 0 }

def sampleFingerprint : Fingerprint :=
  { id := 111, file := { id := 222 }, found := true, sync_at := 0 }

def freshMVersion : MVersion :=
  { id := "v2", project_id := "p", slug := none, found := true, sync_at := 100 }

def sampleProjPayload : MrProjectPayload :=
  { id := "p1", slug := "s"
  , versions :=
      [ { id := "v1", project_id := "p1"
        , files := [{ sha1 := "a", sha512 := "xa" }, { sha1 := "b", sha512 := "xb" }] }
      , { id := "v2", project_id := "p1"
        , files := [{ sha1 := "c", sha512 := "xc" }, { sha1 := "d", sha512 := "xd" }] } ] }

/-! Helper lemmas shared by the claim theorems. -/

lemma mem_setDiffList {xs ys : List Nat} {k : Nat} :
    k ∈ setDiffList xs ys ↔ k ∈ xs ∧ k ∉ ys := by
  simp [setDiffList, List.mem_filter, List.mem_dedup]

lemma nodup_setDiffList (xs ys : List Nat) : (setDiffList xs ys).Nodup :=
  (List.nodup_dedup xs).filter _

lemma setDiffList_union_eq (ids present : List Nat)
    (hsub : ∀ k ∈ present, k ∈ ids) :
    (setDiffList ids present).toFinset ∪ present.toFinset = ids.toFinset := by
  ext k
  simp only [Finset.mem_union, List.mem_toFinset, mem_setDiffList]
  constructor
  · rintro (⟨hk, _⟩ | hk)
    · exact hk
    · exact hsub k hk
  · intro hk
    by_cases h : k ∈ present
    · exact Or.inr h
    · exact Or.inl ⟨hk, h⟩

lemma cfFindMods_id_mem {store : List CFMod} {modIds : List Nat} {k : Nat}
    (h : k ∈ (cfFindMods store modIds).map (fun m => m.id)) : k ∈ modIds := by
  rcases List.mem_map.mp h with ⟨m, hm, rfl⟩
  simp only [cfFindMods, List.mem_filter, decide_eq_true_eq] at hm
  exact hm.2

lemma cfFindFingerprints_id_mem {store : List Fingerprint} {fps : List Nat} {k : Nat}
    (h : k ∈ (cfFindFingerprints store fps).map (fun m => m.id)) : k ∈ fps := by
  rcases List.mem_map.mp h with ⟨m, hm, rfl⟩
  simp only [cfFindFingerprints, List.mem_filter, decide_eq_true_eq] at hm
  exact hm.2

lemma countP_map_of_const {α β : Type} (f : α → β) (p : β → Bool) (b : Bool)
    (h : ∀ a, p (f a) = b) (l : List α) :
    (l.map f).countP p = if b then l.length else 0 := by
  induction l with
  | nil => cases b <;> simp
  | cons a t ih => cases b <;> simp_all [List.countP_cons, h]

lemma spav_countP_project (slug : String) (now : Nat) :
    ∀ res : List MrVersionPayload,
      (sync_project_all_version_models slug res now).countP MRecord.isProject = 0
  | [] => rfl
  | v :: rest => by
      have hmap := countP_map_of_const
        (fun f => MRecord.file (mkModrinthFile slug v f now)) MRecord.isProject false
        (fun _ => rfl) v.files
      simp [sync_project_all_version_models, List.countP_append, hmap,
        spav_countP_project slug now rest, MRecord.isProject, List.countP_cons]

lemma spav_countP_version (slug : String) (now : Nat) :
    ∀ res : List MrVersionPayload,
      (sync_project_all_version_models slug res now).countP MRecord.isVersion
        = res.length
  | [] => rfl
  | v :: rest => by
      have hmap := countP_map_of_const
        (fun f => MRecord.file (mkModrinthFile slug v f now)) MRecord.isVersion false
        (fun _ => rfl) v.files
      simp [sync_project_all_version_models, List.countP_append, hmap,
        spav_countP_version slug now rest, MRecord.isVersion, List.countP_cons]

lemma spav_countP_file (slug : String) (now : Nat) :
    ∀ res : List MrVersionPayload,
      (sync_project_all_version_models slug res now).countP MRecord.isFile
        = (res.map (fun v => v.files.length)).sum
  | [] => rfl
  | v :: rest => by
      have hmap := countP_map_of_const
        (fun f => MRecord.file (mkModrinthFile slug v f now)) MRecord.isFile true
        (fun _ => rfl) v.files
      simp [sync_project_all_version_models, List.countP_append, hmap,
        spav_countP_file slug now rest, MRecord.isFile, List.countP_cons]

lemma spav_found (slug : String) (now : Nat) :
    ∀ (res : List MrVersionPayload) (r : MRecord),
      r ∈ sync_project_all_version_models slug res now → r.foundFlag = true
  | v :: rest, r, hr => by
      simp only [sync_project_all_version_models, List.mem_append,
        List.mem_singleton, List.mem_map] at hr
      rcases hr with (⟨f, _, rfl⟩ | rfl) | htail
      · rfl
      · rfl
      · exact spav_found slug now rest r htail

lemma spav_file_src (slug : String) (now : Nat) :
    ∀ (res : List MrVersionPayload) (r : MRecord),
      r ∈ sync_project_all_version_models slug res now → r.isFile = true →
      ∃ v ∈ res, ∃ f ∈ v.files, r = MRecord.file (mkModrinthFile slug v f now)
  | v :: rest, r, hr, hfile => by
      simp only [sync_project_all_version_models, List.mem_append,
        List.mem_singleton, List.mem_map] at hr
      rcases hr with (⟨f, hf, rfl⟩ | rfl) | htail
      · exact ⟨v, List.mem_cons_self v rest, f, hf, rfl⟩
      · exact absurd hfile (by simp [MRecord.isFile])
      · rcases spav_file_src slug now rest r htail hfile with ⟨v', hv', f, hf, hrf⟩
        exact ⟨v', List.mem_cons_of_mem v hv', f, hf, hrf⟩

/-! Claim theorems. -/

/-- C1 counterexample: the claim states that a single-entity read finding a
stored record whose sync_at is older than the kind's TTL must yield
trustable false.  With a mod whose sync_at is a billion seconds in the past
(older than any TTL; the source's staleness check in curseforge_mod is
commented out), the curseforge single-mod read still answers trustable true,
while the spec's freshness decision demands false. -/
theorem claim_C1_counterexample :
    1000000000 - staleCFMod.sync_at > 86400
    ∧ (curseforge_mod [staleCFMod] 30001 false).1 = CFResp.modData staleCFMod true
    ∧ isTrustable_spec (some (staleCFMod.found, staleCFMod.sync_at)) 86400 1000000000
        = false := by
  refine ⟨by decide, rfl, by decide⟩

/-- C2 counterexample: the claim states that with the force flag every handler
returns the explicit uncached response.  For curseforge_mods with a fresh
stored record for every requested key, the force branch instead returns an
empty-data response with trustable false, which is not the uncached signal,
although it does enqueue the full request set. -/
theorem claim_C2_counterexample :
    cfFindMods [freshCFMod] [30002] = [freshCFMod]
    ∧ (curseforge_mods [freshCFMod] [30002] true).1 = CFResp.modsData [] false
    ∧ decide ((curseforge_mods [freshCFMod] [30002] true).1 = CFResp.uncached) = false
    ∧ (curseforge_mods [freshCFMod] [30002] true).2 = [[30002]] := by
  refine ⟨by decide, rfl, by decide, rfl⟩

/-- C2 amended: with the force flag every handler enqueues a synchronization
job for the full original request set and returns no stored data; the
curseforge_mod and curseforge_fingerprints handlers return the explicit
uncached response, but curseforge_mods instead returns an empty-data response
with trustable false. -/
theorem claim_C2_amended (store : List CFMod) (fstore : List Fingerprint)
    (keys fps : List Nat) (k : Nat) :
    curseforge_mod store k true = (CFResp.uncached, [[k]])
    ∧ curseforge_mods store keys true = (CFResp.modsData [] false, [keys])
    ∧ curseforge_fingerprints fstore fps true = (CFResp.uncached, [fps]) := by
  refine ⟨rfl, rfl, rfl⟩

/-- C6 counterexample: the claim states that reconciling an empty requested
key set returns overall trustable true and never issues an enqueue call with
an empty key set.  On the empty request, curseforge_mods takes the
nothing-found branch: it issues one enqueue call whose key list is empty and
returns trustable false. -/
theorem claim_C6_counterexample :
    (curseforge_mods [] [] false).1 = CFResp.modsData [] false
    ∧ (curseforge_mods [] [] false).2 = [[]]
    ∧ decide ((curseforge_mods [] [] false).2 = []) = false := by
  refine ⟨rfl, rfl, by decide⟩

/-- C6 amended: for every store, reconciling an empty requested key set takes
the nothing-found branch of curseforge_mods: it issues exactly one enqueue
call carrying the empty key list and returns an empty response with
trustable false. -/
theorem claim_C6_amended (store : List CFMod) :
    curseforge_mods store [] false = (CFResp.modsData [] false, [[]]) := by
  simp [curseforge_mods, cfFindMods]

/-- C9: whenever the upstream fetch of a version succeeds, sync_version calls
process_version_resp with two positional arguments while that function has
exactly one parameter, so the job raises a TypeError before committing
anything; the found path of sync_version never commits records. -/
theorem claim_C9 (res : MrVersionPayload) (vid : String)
    (cascade : List MRecord) (now : Nat) :
    sync_version (MrFetchResult.ok res) vid cascade now
        = SyncVersionOutcome.raisedTypeError
    ∧ (sync_version_call_args res).length = 2
    ∧ process_version_resp_paramCount = 1 := by
  refine ⟨rfl, rfl, rfl⟩

/-- C10: a batch version_files request in which every requested hash has a
stored File record but two files share the same version_id is answered with
trustable false and enqueues a redundant sync_multi_versions job, because the
handler compares the number of distinct Version records found against the
number of File records instead of the number of distinct version ids.  Here
hashes a and b both resolve to files of version v1, and v1 is in the store. -/
theorem claim_C10 :
    ([sampleFileA, sampleFileB].filter
        (fun f => decide (f.sha1 ∈ ["a", "b"]))).length = 2
    ∧ sampleFileA.version_id = sampleFileB.version_id
    ∧ sampleVersion1.id = sampleFileA.version_id
    ∧ modrinth_files [sampleFileA, sampleFileB] [sampleVersion1] ["a", "b"] true
        = (MrResp.versData [sampleVersion1] false,
           [MrJob.syncMultiVersions ["v1", "v1"]]) := by
  refine ⟨by decide, rfl, rfl, by decide⟩

/-- C3: the claim states that a 404 upstream response makes the worker commit
a minimal record with found false.  The source instead writes
Project(success=False, ...); success is not a field of the Project model, so
the committed record keeps the default found true and is not a negative-cache
tombstone, although a subsequent non-forced lookup of the key is indeed
answered from the store with no further job. -/
theorem claim_C3_bug :
    sync_project_404_models "missing-proj" 42
      = [{ id := "missing-proj", slug := "missing-proj", found := true, sync_at := 42 }]
    ∧ ((sync_project_404_models "missing-proj" 42).map (fun p => p.found)) = [true]
    ∧ modrinth_project (sync_project_404_models "missing-proj" 42)
        "missing-proj" 86400 50
      = (MrResp.projData
          { id := "missing-proj", slug := "missing-proj", found := true, sync_at := 42 }
          true, []) := by
  refine ⟨by decide, by decide, by decide⟩

/-- C8 counterexample: the claim states that a lookup finding a stored record
past its TTL still returns that record's data with trustable false, never a
bodiless status without data or flag.  For a version stale by far more than
its TTL, modrinth_version returns the bare expire status response, which
carries neither data nor a trustable flag. -/
theorem claim_C8_counterexample :
    staleMVersion.sync_at + 86400 < 1000000000
    ∧ (modrinth_version [staleMVersion] "v1" 86400 1000000000).1 = MrResp.expireStatus
    ∧ decide ((modrinth_version [staleMVersion] "v1" 86400 1000000000).1
        = MrResp.verData staleMVersion false) = false
    ∧ decide ((modrinth_version [staleMVersion] "v1" 86400 1000000000).1
        = MrResp.uncached) = false := by
  refine ⟨by decide, by decide, by decide, by decide⟩

/-- C1 amended: the modrinth single-project read agrees with the spec's
freshness decision whenever the found record has found true (the found flag
itself is never consulted by the handler), while the curseforge single-mod
read returns trustable true for every found record regardless of sync_at,
its TTL check being disabled in the source. -/
theorem claim_C1_amended (store : List MProject) (idslug : String) (ttl now : Nat)
    (m : MProject) (cstore : List CFMod) (mid : Nat) (cm : CFMod)
    (hfind : mrFindProject store idslug = some m) (hfound : m.found = true)
    (hcfind : cfFindMod cstore mid = some cm) :
    (modrinth_project store idslug ttl now).1
      = MrResp.projData m (isTrustable_spec (some (m.found, m.sync_at)) ttl now)
    ∧ (curseforge_mod cstore mid false).1 = CFResp.modData cm true := by
  constructor
  · by_cases hst : m.sync_at + ttl < now
    · have hd : now - m.sync_at > ttl := by omega
      simp [modrinth_project, hfind, hst, isTrustable_spec, hfound, hd]
    · have hd : ¬ now - m.sync_at > ttl := by omega
      simp [modrinth_project, hfind, hst, isTrustable_spec, hfound, hd]
  · simp [curseforge_mod, hcfind]

/-- C1 witness: the amended claim at a concrete fresh project and a concrete
found curseforge mod. -/
theorem claim_C1_witness :
    (modrinth_project [sampleMProject] "p" 10 5).1
      = MrResp.projData sampleMProject
          (isTrustable_spec (some (sampleMProject.found, sampleMProject.sync_at)) 10 5)
    ∧ (curseforge_mod [freshCFMod] 30002 false).1 = CFResp.modData freshCFMod true :=
  claim_C1_amended [sampleMProject] "p" 10 5 sampleMProject [freshCFMod] 30002
    freshCFMod (by decide) (by decide) (by decide)

/-- C4: for every requested key set, the keys reported missing are exactly the
requested keys minus the ids of the records returned from the store, with no
key dropped or duplicated, and in the count-mismatch branch exactly that
missing set is passed to the sync dispatcher, both for the mods endpoint and
for the fingerprints endpoints. -/
theorem claim_C4 (store : List CFMod) (modIds : List Nat)
    (fstore : List Fingerprint) (fps : List Nat)
    (h1 : (cfFindMods store modIds).isEmpty = false)
    (h2 : (cfFindMods store modIds).length ≠ modIds.length)
    (h3 : (cfFindFingerprints fstore fps).isEmpty = false)
    (h4 : (cfFindFingerprints fstore fps).length ≠ fps.length) :
    (setDiffList modIds ((cfFindMods store modIds).map (fun m => m.id))).toFinset
        ∪ ((cfFindMods store modIds).map (fun m => m.id)).toFinset
        = modIds.toFinset
    ∧ (setDiffList modIds ((cfFindMods store modIds).map (fun m => m.id))).Nodup
    ∧ (∀ k ∈ setDiffList modIds ((cfFindMods store modIds).map (fun m => m.id)),
        k ∉ (cfFindMods store modIds).map (fun m => m.id))
    ∧ curseforge_mods store modIds false
        = (CFResp.modsData (cfFindMods store modIds) false,
           [setDiffList modIds ((cfFindMods store modIds).map (fun m => m.id))])
    ∧ (setDiffList fps ((cfFindFingerprints fstore fps).map (fun m => m.id))).toFinset
        ∪ ((cfFindFingerprints fstore fps).map (fun m => m.id)).toFinset
        = fps.toFinset
    ∧ (curseforge_fingerprints fstore fps false).2
        = [setDiffList fps ((cfFindFingerprints fstore fps).map (fun m => m.id))] := by
  refine ⟨setDiffList_union_eq _ _ (fun k hk => cfFindMods_id_mem hk),
          nodup_setDiffList _ _,
          fun k hk => (mem_setDiffList.mp hk).2,
          ?_,
          setDiffList_union_eq _ _ (fun k hk => cfFindFingerprints_id_mem hk),
          ?_⟩
  · simp [curseforge_mods, h1, h2]
  · simp [curseforge_fingerprints, h3, h4]

/-- C4 witness: the dispatch equations of the claim at concrete inputs, with
the missing sets evaluated. -/
theorem claim_C4_witness :
    curseforge_mods [freshCFMod] [30002, 30003] false
      = (CFResp.modsData [freshCFMod] false, [[30003]])
    ∧ (curseforge_fingerprints [sampleFingerprint] [111, 112] false).2 = [[112]] := by
  have h := claim_C4 [freshCFMod] [30002, 30003] [sampleFingerprint] [111, 112]
    (by decide) (by decide) (by decide) (by decide)
  exact ⟨h.2.2.2.1.trans (by decide), h.2.2.2.2.2.trans (by decide)⟩

/-- C5: normalizing a found project payload with 2 versions of 2 files each
yields exactly 1 Project record, 2 Version records and 4 File records; every
emitted record is tagged found true, and every emitted File record carries
version_id equal to the id of the version payload that contained it. -/
theorem claim_C5 (proj : MrProjectPayload) (now : Nat)
    (h2 : proj.versions.length = 2)
    (hf : ∀ v ∈ proj.versions, v.files.length = 2) :
    (sync_project_found_models proj now).countP MRecord.isProject = 1
    ∧ (sync_project_found_models proj now).countP MRecord.isVersion = 2
    ∧ (sync_project_found_models proj now).countP MRecord.isFile = 4
    ∧ (∀ r ∈ sync_project_found_models proj now, r.foundFlag = true)
    ∧ (∀ r ∈ sync_project_found_models proj now, r.isFile = true →
        ∃ v ∈ proj.versions, ∃ f ∈ v.files,
          r = MRecord.file (mkModrinthFile proj.slug v f now)
          ∧ (mkModrinthFile proj.slug v f now).version_id = v.id) := by
  refine ⟨?_, ?_, ?_, ?_, ?_⟩
  · simp [sync_project_found_models, List.countP_cons, spav_countP_project,
      MRecord.isProject]
  · simp [sync_project_found_models, List.countP_cons, spav_countP_version,
      MRecord.isVersion, h2]
  · rcases List.length_eq_two.mp h2 with ⟨a, b, hab⟩
    have ha : a.files.length = 2 := hf a (by simp [hab])
    have hb : b.files.length = 2 := hf b (by simp [hab])
    simp [sync_project_found_models, List.countP_cons, spav_countP_file,
      MRecord.isFile, hab, ha, hb]
  · intro r hr
    rcases List.mem_cons.mp hr with rfl | htail
    · rfl
    · exact spav_found proj.slug now proj.versions r htail
  · intro r hr hfile
    rcases List.mem_cons.mp hr with rfl | htail
    · exact absurd hfile (by simp [MRecord.isFile])
    · rcases spav_file_src proj.slug now proj.versions r htail hfile with
        ⟨v, hv, f, hfm, hrf⟩
      exact ⟨v, hv, f, hfm, hrf, rfl⟩

/-- C5 witness: the record counts of the claim at a concrete payload with two
versions of two files each. -/
theorem claim_C5_witness :
    sampleProjPayload.versions.length = 2
    ∧ (sync_project_found_models sampleProjPayload 7).countP MRecord.isProject = 1
    ∧ (sync_project_found_models sampleProjPayload 7).countP MRecord.isVersion = 2
    ∧ (sync_project_found_models sampleProjPayload 7).countP MRecord.isFile = 4 :=
  ⟨by decide,
   (claim_C5 sampleProjPayload 7 (by decide) (by decide)).1,
   (claim_C5 sampleProjPayload 7 (by decide) (by decide)).2.1,
   (claim_C5 sampleProjPayload 7 (by decide) (by decide)).2.2.1⟩

/-- C7: every fingerprint record found in the store and placed into the
response has its externally visible id replaced by the id of the file it
resolves to, while exactFingerprints still reports the original fingerprint
keys and each returned entry differs from the stored record only in that
id field. -/
theorem claim_C7 (store : List Fingerprint) (fps : List Nat)
    (h : (cfFindFingerprints store fps).isEmpty = false) :
    ((curseforge_fingerprints store fps false).1.fingerMatches).map (fun m => m.id)
      = (cfFindFingerprints store fps).map (fun m => m.file.id)
    ∧ (curseforge_fingerprints store fps false).1.fingerExact
      = (cfFindFingerprints store fps).map (fun m => m.id)
    ∧ (curseforge_fingerprints store fps false).1.fingerMatches
      = (cfFindFingerprints store fps).map fingerprintDump := by
  refine ⟨?_, ?_, ?_⟩ <;>
    simp [curseforge_fingerprints, h, CFResp.fingerMatches, CFResp.fingerExact,
      List.map_map, fingerprintDump, Function.comp]

/-- C7 witness: the id substitution at a concrete store holding fingerprint
111 resolving to file 222. -/
theorem claim_C7_witness :
    ((curseforge_fingerprints [sampleFingerprint] [111] false).1.fingerMatches).map
        (fun m => m.id) = [222]
    ∧ (curseforge_fingerprints [sampleFingerprint] [111] false).1.fingerExact
        = [111] := by
  have h := claim_C7 [sampleFingerprint] [111] (by decide)
  exact ⟨h.1.trans (by decide), h.2.1.trans (by decide)⟩

/-- C8 amended: modrinth_version yields the uncached signal exactly when no
record exists, a bare expire status response with neither data nor flag
exactly when the found record is past its TTL, and otherwise the record's
data with trustable true. -/
theorem claim_C8_amended (store : List MVersion) (vid : String) (ttl now : Nat) :
    ((modrinth_version store vid ttl now).1 = MrResp.expireStatus
      ↔ ∃ m, mrFindVersion store vid = some m ∧ m.sync_at + ttl < now)
    ∧ ((modrinth_version store vid ttl now).1 = MrResp.uncached
      ↔ mrFindVersion store vid = none)
    ∧ (∀ m, mrFindVersion store vid = some m → ¬ m.sync_at + ttl < now →
        (modrinth_version store vid ttl now).1 = MrResp.verData m true) := by
  cases hfind : mrFindVersion store vid with
  | none =>
      refine ⟨by simp [modrinth_version, hfind], by simp [modrinth_version, hfind],
        ?_⟩
      intro m hm
      simp [hfind] at hm
  | some m =>
      by_cases hst : m.sync_at + ttl < now
      · refine ⟨by simp [modrinth_version, hfind, hst],
          by simp [modrinth_version, hfind, hst], ?_⟩
        intro m' hm' hst'
        rw [Option.some.injEq] at hm'
        subst hm'
        exact absurd hst hst'
      · refine ⟨by simp [modrinth_version, hfind, hst],
          by simp [modrinth_version, hfind, hst], ?_⟩
        intro m' hm' _
        rw [Option.some.injEq] at hm'
        subst hm'
        simp [modrinth_version, hfind, hst]

/-- C8 witness: the amended claim's fresh branch at a concrete fresh
version. -/
theorem claim_C8_witness :
    (modrinth_version [freshMVersion] "v2" 10 50).1
      = MrResp.verData freshMVersion true :=
  (claim_C8_amended [freshMVersion] "v2" 10 50).2.2 freshMVersion
    (by decide) (by decide)

end MCMirror
